import Mathlib

set_option maxHeartbeats 1000000

namespace ArcSpec

/-- Tri-state availability from the data model. In the source the resolved value is a
JS boolean or null: true maps to Available, false to Unavailable, null to Unknown. -/
inductive Availability where
  | Available
  | Unavailable
  | Unknown
deriving DecidableEq

/-- A color variant as carried through the diff: stable identifier plus display label
(swatch metadata is passed through unexamined and omitted here). -/
structure Variant where
  variantId : String
  label : String
deriving DecidableEq

/-- The two-partition snapshot record built by checkStock in src/index.js
(lines 27 and 389): inStock and outOfStock lists of variants. -/
structure Stock where
  inStock : List Variant
  outOfStock : List Variant
deriving DecidableEq

/-- The three-partition snapshot record built by checkAllVariantStocks in
src/unnamed/part_001 (lines 415-445): inStock, outOfStock and unknown lists. -/
structure StockTri where
  inStock : List Variant
  outOfStock : List Variant
  unknown : List Variant
deriving DecidableEq

/-- JSON-like values as parsed from script tags or API responses. Field absence
(JS undefined) is modelled with Option at access sites; a present null field is
Json.null. Numbers are integers, which is all the payload shapes here need. -/
inductive Json where
  | null
  | bool (b : Bool)
  | num (n : Int)
  | str (s : String)
  | arr (elems : List Json)
  | obj (fields : List (String × Json))

/-- Property access j[k]: undefined (absence, or access on a non-object) is none. -/
def Json.get : Json → String → Option Json
  | .obj fields, k => fields.lookup k
  | _, _ => none

/-- JS truthiness of a value. Arrays and objects are always truthy, including the
empty array; NaN does not arise since numbers are integers here. -/
def Json.truthy : Json → Bool
  | .null => false
  | .bool b => b
  | .num n => !(n == 0)
  | .str s => !(s == "")
  | .arr _ => true
  | .obj _ => true

/-- Truthiness of a possibly-undefined value: undefined and null are both falsy. -/
def optTruthy : Option Json → Bool
  | none => false
  | some v => v.truthy

/-- JS short-circuit or between possibly-undefined values. -/
def jsOr (a b : Option Json) : Option Json :=
  if optTruthy a then a else b

/-- JS nullish coalescing between possibly-undefined values: the left operand wins
unless it is null or undefined. -/
def jsNullish (a b : Option Json) : Option Json :=
  match a with
  | none => b
  | some Json.null => b
  | some v => some v

/-- The child loop of findInObject in src/index.js (lines 138-143): return the first
child result that is not null, else null. -/
def firstNonNull : List Json → Json
  | [] => Json.null
  | Json.null :: rest => firstNonNull rest
  | v :: _ => v

/-- findInObject from src/index.js lines 129-146: bounded-depth recursive key search.
JS returns null both for not-found and for a null-valued hit, so the return type is
Json with Json.null as the not-found sentinel, exactly as in the source. The fuel
argument counts node levels still allowed: the source admits currentDepth 0..maxDepth
with maxDepth 10, hence eleven levels from the top call. Arrays recurse into their
elements (Object.keys of an array enumerates indices); the searched keys are
non-numeric, so index or length lookups on arrays never hit. -/
def findInObjectAux (targetKey : String) : Nat → Json → Json
  | 0, _ => Json.null
  | fuel + 1, j =>
    match j with
    | Json.obj fields =>
      match fields.lookup targetKey with
      | some v => v
      | none => firstNonNull (fields.map (fun kv => findInObjectAux targetKey fuel kv.2))
    | Json.arr elems => firstNonNull (elems.map (findInObjectAux targetKey fuel))
    | _ => Json.null

/-- Top-level findInObject call with the default maxDepth of 10. -/
def findInObject (j : Json) (targetKey : String) : Json :=
  findInObjectAux targetKey 11 j

/-- One dehydratedState query scan step from src/index.js lines 192-204: take
state.data.product when truthy, else state.data itself when it carries a
colourOptions or colorOptions field. -/
def scanQuery (q : Json) : Option Json :=
  let data := (q.get "state").bind (fun s => s.get "data")
  let p := data.bind (fun d => d.get "product")
  if optTruthy p then p
  else if optTruthy (data.bind (fun d => d.get "colourOptions"))
      || optTruthy (data.bind (fun d => d.get "colorOptions")) then data
  else none

/-- The dehydratedState query loop: first query that yields a product wins. -/
def scanQueries : List Json → Option Json
  | [] => none
  | q :: rest =>
    match scanQuery q with
    | some p => some p
    | none => scanQueries rest

/-- src/index.js lines 187-216: locate the product object inside pageProps, trying
the direct product field, then the dehydratedState query list, then initialData, in
that order; none models the thrown error when no location matches. -/
def locateProduct (pageProps : Json) : Option Json :=
  let direct := pageProps.get "product"
  if optTruthy direct then direct
  else
    let fromQueries :=
      match (pageProps.get "dehydratedState").bind (fun d => d.get "queries") with
      | some (Json.arr qs) => scanQueries qs
      | _ => none
    if optTruthy fromQueries then fromQueries
    else
      let fromInitial := (pageProps.get "initialData").bind (fun d => d.get "product")
      if optTruthy fromInitial then fromInitial
      else none

/-- The variationAttributes path piece of src/index.js line 229: find the attribute
whose id field is the string color. A non-array variationAttributes value would throw
in the source, aborting extraction before the loop; it is modelled as a miss since
the selection loop never sees a value in that case. -/
def findColorAttr (o : Option Json) : Option Json :=
  match o with
  | some (Json.arr vs) =>
    vs.find? (fun v =>
      match v.get "id" with
      | some (Json.str s) => s == "color"
      | _ => false)
  | _ => none

/-- src/index.js lines 223-232: the ordered list of color-option extraction paths.
All eight entries are computed before the selection loop runs, as in the source
array literal, so every strategy is attempted on the payload; the two findInObject
entries are the bounded-depth recursive key search, tried last. -/
def colorPaths (product : Json) : List (Option Json) :=
  [ (product.get "colourOptions").bind (fun c => c.get "options"),
    (product.get "colorOptions").bind (fun c => c.get "options"),
    product.get "colourOptions",
    product.get "colorOptions",
    ((product.get "variations").bind (fun v => v.get "color")).bind (fun c => c.get "values"),
    (findColorAttr (product.get "variationAttributes")).bind (fun v => v.get "values"),
    some (findInObject product "colourOptions"),
    some (findInObject product "colorOptions") ]

/-- One iteration of the selection loop, src/index.js lines 234-246: accept a
non-empty array as is, or an object whose options field is truthy, in which case
that field is taken. An empty array falls through both tests: it fails the length
check and, being an array, has no options property. -/
def pathAccept (p : Option Json) : Option Json :=
  match p with
  | some (Json.arr elems) => if elems.isEmpty then none else some (Json.arr elems)
  | some (Json.obj fields) =>
    match fields.lookup "options" with
    | some v => if v.truthy then some v else none
    | none => none
  | _ => none

/-- The selection loop over colorPaths: the first accepted path wins, returned
together with its zero-based index (the extraction source tag). -/
def selectColorOptions : List (Option Json) → Option (Nat × Json)
  | [] => none
  | p :: rest =>
    match pathAccept p with
    | some v => some (0, v)
    | none =>
      match selectColorOptions rest with
      | some (i, v) => some (i + 1, v)
      | none => none

/-- src/index.js lines 248-254: after the loop, extraction fails unless the selected
value is a non-empty array (the length check throws on empty, and mapping over a
non-array value selected through an options field would throw). -/
def extractVariantList (product : Json) : Option (Nat × List Json) :=
  match selectColorOptions (colorPaths product) with
  | some (k, Json.arr elems) => if elems.isEmpty then none else some (k, elems)
  | _ => none

/-- Index of the extraction path that produced the variant list, when extraction
succeeds. -/
def extractStrategyIndex (product : Json) : Option Nat :=
  (extractVariantList product).map (fun kv => kv.1)

/-- Whether a path value denotes a non-empty variant list under the rules of the
selection loop: either it is a non-empty array itself, or it is an object whose
options field is a non-empty array. -/
def yieldsNonEmptyVariants (p : Option Json) : Bool :=
  match p with
  | some (Json.arr elems) => !elems.isEmpty
  | some (Json.obj fields) =>
    match fields.lookup "options" with
    | some (Json.arr elems) => !elems.isEmpty
    | _ => false
  | _ => false

/-- Normalized fields of one color option, src/index.js lines 254-267. -/
structure ParsedVariant where
  variantId : Option Json
  label : Option Json
  available : Option Json

/-- src/index.js lines 254-267: normalize one color-option entry, resolving field
name synonyms with short-circuit or, and the availability flag with nullish
coalescing ending in null (modelled as none). -/
def parseVariant (opt : Json) : ParsedVariant :=
  { variantId := jsOr (opt.get "value") (jsOr (opt.get "id")
      (jsOr (opt.get "colourCode") (opt.get "code"))),
    label := jsOr (opt.get "label") (jsOr (opt.get "displayValue")
      (jsOr (opt.get "name") (jsOr (opt.get "colourName") (some (Json.str "Unknown"))))),
    available := jsNullish (opt.get "available")
      (jsNullish (opt.get "inStock") (jsNullish (opt.get "ATC") none)) }

/-- Outcome of locating and parsing the NEXT_DATA script on a variant page:
the tag may be missing, its contents may fail JSON.parse (the inner catch at
src/index.js lines 329-331), or it parses. -/
inductive ScriptData where
  | missing
  | unparsable
  | parsed (nd : Json)

/-- Lowercased page-text predicates used by methods 2-4 of checkVariantStock,
src/index.js lines 334-357. Each flag abstracts one substring test of the raw body
(the string matching primitive is an external collaborator). -/
structure PageText where
  hasNotifyMe : Bool
  hasAddToCart : Bool
  hasDisabled : Bool
  hasOutOfStock : Bool
  hasSoldOut : Bool

/-- A variant page response as consumed by checkVariantStock. -/
structure VariantPage where
  script : ScriptData
  text : PageText

/-- Outcome of the per-variant probe request: the transport layer throws (error or
timeout, caught at src/index.js lines 361-364), or a response arrives. -/
inductive Probe where
  | transportError
  | response (page : VariantPage)

/-- Read a strict boolean flag: the JS tests v === true and v === false in sequence,
which together return the value exactly when it is a boolean. -/
def boolFlag : Option Json → Option Bool
  | some (Json.bool b) => some b
  | _ => none

/-- Method 1 of checkVariantStock, src/index.js lines 301-332: structured flags from
the parsed page data, in source order ATC, available, then selectedColour or
selectedColor, then its available and ATC flags. A missing or unparsable script
yields no verdict and falls through to the text methods. -/
def dataClassify (script : ScriptData) : Option Bool :=
  match script with
  | ScriptData.parsed nd =>
    let product := ((nd.get "props").bind (fun p => p.get "pageProps")).bind
      (fun p => p.get "product")
    match boolFlag (product.bind (fun p => p.get "ATC")) with
    | some b => some b
    | none =>
      match boolFlag (product.bind (fun p => p.get "available")) with
      | some b => some b
      | none =>
        let selected := jsOr (product.bind (fun p => p.get "selectedColour"))
          (product.bind (fun p => p.get "selectedColor"))
        match boolFlag (selected.bind (fun s => s.get "available")) with
        | some b => some b
        | none => boolFlag (selected.bind (fun s => s.get "ATC"))
  | _ => none

/-- Methods 2-4 of checkVariantStock, src/index.js lines 334-359: notify-me text
means out of stock; add-to-cart text with no disabled or out-of-stock marker means
in stock; explicit out-of-stock or sold-out text means out of stock; otherwise the
status is undetermined (null). -/
def textClassify (t : PageText) : Option Bool :=
  if t.hasNotifyMe then some false
  else if t.hasAddToCart && (!t.hasDisabled && !t.hasOutOfStock) then some true
  else if t.hasOutOfStock || t.hasSoldOut then some false
  else none

/-- checkVariantStock, src/index.js lines 285-365: a thrown transport error returns
null; otherwise the structured data verdict wins, else the text verdict. -/
def checkVariantStock (probe : Probe) : Option Bool :=
  match probe with
  | Probe.transportError => none
  | Probe.response page =>
    match dataClassify page.script with
    | some b => some b
    | none => textClassify page.text

/-- One extracted variant entering the resolution loop of checkStock
(src/index.js lines 391-410): the variant, the availability value carried from
extraction (none models null), and the probe outcome its variant page would give. -/
structure Entry where
  variant : Variant
  initial : Option Json
  probe : Probe

/-- The per-variant resolution of src/index.js lines 394-401: keep a non-null
extracted availability, otherwise the probe result (a boolean or null). -/
def resolveEntry (e : Entry) : Option Json :=
  match e.initial with
  | some v => some v
  | none => (checkVariantStock e.probe).map Json.bool

/-- The test isAvailable === true from src/index.js line 403. -/
def isAvailTrue : Option Json → Bool
  | some (Json.bool true) => true
  | _ => false

/-- Availability reading of a resolved JS value: true, false and null map to the
tri-state; any other value carries no availability evidence and reads as Unknown. -/
def availabilityOf : Option Json → Availability
  | some (Json.bool true) => Availability.Available
  | some (Json.bool false) => Availability.Unavailable
  | none => Availability.Unknown
  | some _ => Availability.Unknown

/-- The partition loop of checkStock, src/index.js lines 389-410: each variant in
order is resolved and appended to inStock when the result is exactly true, else to
outOfStock. -/
def buildStock : List Entry → Stock
  | [] => { inStock := [], outOfStock := [] }
  | e :: rest =>
    let s := buildStock rest
    if isAvailTrue (resolveEntry e) then
      { inStock := e.variant :: s.inStock, outOfStock := s.outOfStock }
    else
      { inStock := s.inStock, outOfStock := e.variant :: s.outOfStock }

/-- The restock detection of checkStock, src/index.js lines 421-433: skipped when
the previous snapshot has no variants in either partition (the first-run guard),
otherwise the current inStock entries whose variantId appears in the previous
outOfStock partition, in current order. -/
def detectRestocks (previous current : Stock) : List Variant :=
  if previous.outOfStock.length > 0 ∨ previous.inStock.length > 0 then
    current.inStock.filter (fun color =>
      previous.outOfStock.any (fun p => p.variantId == color.variantId))
  else []

/-- The initial previousStock value, src/index.js line 27: both partitions empty,
standing for the absent predecessor snapshot of the first cycle. -/
def initialStock : Stock :=
  { inStock := [], outOfStock := [] }

/-- src/index.js lines 423-425 as a run: the diff computes a fresh filtered list
with filter and some, writing to neither snapshot, so the run returns the event
list together with the snapshots as they stand after the computation. -/
def detectRestocksRun (previous current : Stock) : List Variant × Stock × Stock :=
  (detectRestocks previous current, previous, current)

/-- detectRestocks from src/unnamed/part_001 lines 447-461: before the first commit
previousStock is the empty object (modelled none), its optional outOfStock chain is
undefined and no color is collected; after a commit the record has its three keys,
so the Object.keys guard holds and membership in outOfStock decides. -/
def detectRestocksP1 (previous : Option StockTri) (current : StockTri) : List Variant :=
  match previous with
  | none => []
  | some p =>
    current.inStock.filter (fun color =>
      p.outOfStock.any (fun q => q.variantId == color.variantId))

/-- What a cycle receives: the fetch-and-extract stage throws (FetchError or
ExtractionError caught at src/index.js lines 446-450), or yields the extracted
entries with their probe outcomes. -/
inductive CycleInput where
  | failure
  | success (entries : List Entry)

/-- Observable outcome of one cycle: the committed snapshot afterwards, the restock
events emitted, whether an error report was sent, and whether the process exited. -/
structure CycleResult where
  previousStock : Stock
  restockEvents : List Variant
  errorReported : Bool
  processExited : Bool

/-- checkStock, src/index.js lines 368-451, as a transition on the committed
snapshot: on a cycle-aborting error the catch block sends an error alert and
returns, leaving previousStock untouched and the process running; on success the
new snapshot is built, the diff runs against the old committed snapshot, and only
then is previousStock replaced (line 441). -/
def checkStock (previousStock : Stock) (input : CycleInput) : CycleResult :=
  match input with
  | CycleInput.failure =>
    { previousStock := previousStock, restockEvents := [],
      errorReported := true, processExited := false }
  | CycleInput.success entries =>
    let currentStock := buildStock entries
    let newlyAvailable := detectRestocks previousStock currentStock
    { previousStock := currentStock, restockEvents := newlyAvailable,
      errorReported := false, processExited := false }

/-- Scheduler state: the number of cycles started and not yet completed. checkStock
suspends at its await points, so a later interval tick can run while an earlier
cycle is still in flight. -/
structure SchedulerState where
  cyclesInFlight : Nat
deriving DecidableEq

/-- The interval trigger of src/index.js lines 514-521 (and src/unnamed/part_001
lines 590-597): setInterval registers checkStock itself as the callback, and
neither main nor checkStock consults any in-flight flag, so a trigger always
starts a cycle unconditionally. -/
def onIntervalTrigger (s : SchedulerState) : SchedulerState :=
  { cyclesInFlight := s.cyclesInFlight + 1 }

/-- A cycle finishing (checkStock returning, success or reported failure). -/
def onCycleComplete (s : SchedulerState) : SchedulerState :=
  { cyclesInFlight := s.cyclesInFlight - 1 }

/-- How startup ends: an immediate exit with a status code, or entry into the poll
loop. -/
inductive StartupResult where
  | exited (code : Nat)
  | enteredPollLoop
deriving DecidableEq

/-- main from src/unnamed/part_001 lines 577-580: when the webhook URL is empty
(falsy) or still the placeholder, the process exits with status 1 before the
initial check and before setInterval; otherwise it proceeds into the poll loop. -/
def mainStartup (webhookUrl : String) : StartupResult :=
  if webhookUrl == "" || webhookUrl == "YOUR_DISCORD_WEBHOOK_URL_HERE" then
    StartupResult.exited 1
  else StartupResult.enteredPollLoop

/-- The inStock partition collects, in order, the variants whose resolved
availability is exactly true. -/
theorem buildStock_inStock (es : List Entry) :
    (buildStock es).inStock
      = (es.filter (fun e => isAvailTrue (resolveEntry e))).map (fun e => e.variant) := by
  induction es with
  | nil => rfl
  | cons e rest ih =>
    cases h : isAvailTrue (resolveEntry e) <;>
      simp [buildStock, h, ih, List.filter_cons]

/-- The outOfStock partition collects, in order, the variants whose resolved
availability is anything other than true. -/
theorem buildStock_outOfStock (es : List Entry) :
    (buildStock es).outOfStock
      = (es.filter (fun e => !isAvailTrue (resolveEntry e))).map (fun e => e.variant) := by
  induction es with
  | nil => rfl
  | cons e rest ih =>
    cases h : isAvailTrue (resolveEntry e) <;>
      simp [buildStock, h, ih, List.filter_cons]

/-- Every entry lands in exactly one partition, so the partition sizes add up to
the number of entries. -/
theorem buildStock_length (es : List Entry) :
    (buildStock es).inStock.length + (buildStock es).outOfStock.length = es.length := by
  induction es with
  | nil => rfl
  | cons e rest ih =>
    cases h : isAvailTrue (resolveEntry e) <;> simp [buildStock, h] <;> omega

/-- A resolved value reads as anything other than Available exactly when the
strict isAvailable === true test fails. -/
theorem availabilityOf_ne_available (v : Option Json) :
    availabilityOf v ≠ Availability.Available ↔ isAvailTrue v = false := by
  cases v with
  | none => simp [availabilityOf, isAvailTrue]
  | some j =>
    cases j with
    | bool b => cases b <;> simp [availabilityOf, isAvailTrue]
    | null => simp [availabilityOf, isAvailTrue]
    | num n => simp [availabilityOf, isAvailTrue]
    | str s => simp [availabilityOf, isAvailTrue]
    | arr l => simp [availabilityOf, isAvailTrue]
    | obj f => simp [availabilityOf, isAvailTrue]

/-- When the selection loop stops at index k, every earlier path was examined and
rejected by both acceptance tests. -/
theorem selectColorOptions_earlier_rejected (ps : List (Option Json)) (k : Nat) (v : Json)
    (h : selectColorOptions ps = some (k, v)) :
    ∀ j, j < k → pathAccept (ps.getD j none) = none := by
  induction ps generalizing k v with
  | nil => simp [selectColorOptions] at h
  | cons p rest ih =>
    cases hacc : pathAccept p with
    | some w =>
      simp only [selectColorOptions, hacc, Option.some.injEq, Prod.mk.injEq] at h
      obtain ⟨hk, hv⟩ := h
      subst hk
      intro j hj
      exact absurd hj (Nat.not_lt_zero j)
    | none =>
      cases hrest : selectColorOptions rest with
      | none => simp [selectColorOptions, hacc, hrest] at h
      | some iv =>
        obtain ⟨i, w⟩ := iv
        simp only [selectColorOptions, hacc, hrest, Option.some.injEq, Prod.mk.injEq] at h
        obtain ⟨hk, hv⟩ := h
        subst hk
        intro j hj
        cases j with
        | zero => simpa using hacc
        | succ j =>
          simp only [List.getD_cons_succ]
          exact ih i w hrest j (Nat.lt_of_succ_lt_succ hj)

/-- A path rejected by the selection loop denotes no non-empty variant list: it is
neither a non-empty array nor an object whose options field holds one. -/
theorem pathAccept_none_not_nonempty (p : Option Json) (h : pathAccept p = none) :
    yieldsNonEmptyVariants p = false := by
  match p with
  | none => rfl
  | some Json.null => rfl
  | some (Json.bool b) => rfl
  | some (Json.num n) => rfl
  | some (Json.str s) => rfl
  | some (Json.arr elems) =>
    simp only [pathAccept] at h
    by_cases he : elems.isEmpty = true
    · simp [yieldsNonEmptyVariants, he]
    · simp [he] at h
  | some (Json.obj fields) =>
    simp only [pathAccept] at h
    cases hl : fields.lookup "options" with
    | none => simp [yieldsNonEmptyVariants, hl]
    | some w =>
      rw [hl] at h
      simp only [yieldsNonEmptyVariants, hl]
      cases w with
      | arr elems => simp [Json.truthy] at h
      | null => rfl
      | bool b => rfl
      | num n => rfl
      | str s => rfl
      | obj f => rfl

/-- C1 counterexample: the claim that a restock event is emitted only when the
previous availability was exactly Unavailable fails on src/index.js. A variant
whose probe failed in the previous cycle resolves to Unknown, yet checkStock files
it under outOfStock, so when it turns Available the diff emits a restock event. -/
theorem c1_counterexample :
    availabilityOf (resolveEntry ⟨⟨"b", "B"⟩, none, Probe.transportError⟩)
        = Availability.Unknown ∧
    availabilityOf (resolveEntry ⟨⟨"b", "B"⟩, some (Json.bool true), Probe.transportError⟩)
        = Availability.Available ∧
    detectRestocks (buildStock [⟨⟨"b", "B"⟩, none, Probe.transportError⟩])
        (buildStock [⟨⟨"b", "B"⟩, some (Json.bool true), Probe.transportError⟩])
      = [⟨"b", "B"⟩] := by
  decide

/-- C1 amended: against a non-empty previous snapshot, the diff of src/index.js
emits a restock event for a variant in the current inStock partition exactly when
some previous entry with the same variantId resolved to anything other than
Available, that is to Unavailable or to Unknown. In particular an Unknown to
Available transition does produce a restock event. -/
theorem c1_amended (prevEs currEs : List Entry) (v : Variant) (hne : prevEs ≠ []) :
    v ∈ detectRestocks (buildStock prevEs) (buildStock currEs) ↔
      (v ∈ (buildStock currEs).inStock ∧
        ∃ e ∈ prevEs, e.variant.variantId = v.variantId ∧
          availabilityOf (resolveEntry e) ≠ Availability.Available) := by
  have hlen := buildStock_length prevEs
  have hpos : 0 < prevEs.length := List.length_pos.mpr hne
  have hguard : (buildStock prevEs).outOfStock.length > 0
      ∨ (buildStock prevEs).inStock.length > 0 := by omega
  rw [detectRestocks, if_pos hguard, List.mem_filter]
  constructor
  · rintro ⟨hmem, hany⟩
    refine ⟨hmem, ?_⟩
    rw [List.any_eq_true] at hany
    obtain ⟨p, hp, hpid⟩ := hany
    rw [buildStock_outOfStock, List.mem_map] at hp
    obtain ⟨e, he, heq⟩ := hp
    rw [List.mem_filter] at he
    refine ⟨e, he.1, ?_, ?_⟩
    · rw [heq]
      exact beq_iff_eq.mp hpid
    · rw [availabilityOf_ne_available]
      simpa using he.2
  · rintro ⟨hmem, e, he, hid, hav⟩
    refine ⟨hmem, ?_⟩
    rw [List.any_eq_true]
    refine ⟨e.variant, ?_, beq_iff_eq.mpr hid⟩
    rw [buildStock_outOfStock, List.mem_map]
    refine ⟨e, List.mem_filter.mpr ⟨he, ?_⟩, rfl⟩
    rw [availabilityOf_ne_available] at hav
    simp [hav]

/-- Witness for the amended C1 at a concrete pair of one-variant snapshots. -/
theorem c1_amended_witness :
    ([(⟨⟨"b", "B"⟩, none, Probe.transportError⟩ : Entry)] ≠ []) ∧
    ((⟨"b", "B"⟩ : Variant) ∈ detectRestocks
        (buildStock [⟨⟨"b", "B"⟩, none, Probe.transportError⟩])
        (buildStock [⟨⟨"b", "B"⟩, some (Json.bool true), Probe.transportError⟩]) ↔
      ((⟨"b", "B"⟩ : Variant)
          ∈ (buildStock [⟨⟨"b", "B"⟩, some (Json.bool true), Probe.transportError⟩]).inStock ∧
        ∃ e ∈ [(⟨⟨"b", "B"⟩, none, Probe.transportError⟩ : Entry)],
          e.variant.variantId = (⟨"b", "B"⟩ : Variant).variantId ∧
          availabilityOf (resolveEntry e) ≠ Availability.Available)) :=
  ⟨List.cons_ne_nil _ _, c1_amended _ _ _ (List.cons_ne_nil _ _)⟩

/-- C2: diffing with no predecessor yields no restock events. In src/index.js the
initial previousStock has both partitions empty, so the first-run guard at line 422
short-circuits the detection; in src/unnamed/part_001 the initial previousStock is
the empty object, whose optional outOfStock chain collects nothing. -/
theorem c2_baseline_no_events (current : Stock) (c : StockTri) :
    detectRestocks initialStock current = [] ∧ detectRestocksP1 none c = [] := by
  refine ⟨?_, rfl⟩
  simp [detectRestocks, initialStock]

/-- C3: a variant whose probe fails with a transport error or timeout resolves to
Unknown (null, via the catch at src/index.js lines 361-364), the variant still
lands in the snapshot being built (under outOfStock), and every other variant is
still processed: the partition sizes account for all entries, so the cycle is not
aborted. -/
theorem c3_probe_failure_degrades (es : List Entry) (e : Entry)
    (hmem : e ∈ es) (hinit : e.initial = none) (hfail : e.probe = Probe.transportError) :
    availabilityOf (resolveEntry e) = Availability.Unknown ∧
      e.variant ∈ (buildStock es).outOfStock ∧
      (buildStock es).inStock.length + (buildStock es).outOfStock.length = es.length := by
  have hres : resolveEntry e = none := by
    simp [resolveEntry, hinit, hfail, checkVariantStock]
  refine ⟨by simp [hres, availabilityOf], ?_, buildStock_length es⟩
  rw [buildStock_outOfStock, List.mem_map]
  exact ⟨e, List.mem_filter.mpr ⟨hmem, by simp [hres, isAvailTrue]⟩, rfl⟩

/-- Witness for C3 at a concrete one-variant cycle with a failing probe. -/
theorem c3_witness :
    availabilityOf (resolveEntry ⟨⟨"b", "B"⟩, none, Probe.transportError⟩)
        = Availability.Unknown ∧
      (⟨"b", "B"⟩ : Variant)
          ∈ (buildStock [⟨⟨"b", "B"⟩, none, Probe.transportError⟩]).outOfStock ∧
      (buildStock [⟨⟨"b", "B"⟩, none, Probe.transportError⟩]).inStock.length +
        (buildStock [⟨⟨"b", "B"⟩, none, Probe.transportError⟩]).outOfStock.length
        = [(⟨⟨"b", "B"⟩, none, Probe.transportError⟩ : Entry)].length :=
  c3_probe_failure_degrades _ _ (List.mem_singleton.mpr rfl) rfl rfl

/-- C4: the diff is pure. The source computes the event list with filter and some
(src/index.js lines 423-425), which write to neither snapshot; running the diff
again on the snapshots as returned by the first run yields the identical list, and
both snapshots are the unchanged inputs. -/
theorem c4_diff_pure (previous current : Stock) :
    (detectRestocksRun previous current).2.1 = previous ∧
    (detectRestocksRun previous current).2.2 = current ∧
    (detectRestocksRun (detectRestocksRun previous current).2.1
        (detectRestocksRun previous current).2.2).1
      = (detectRestocksRun previous current).1 :=
  ⟨rfl, rfl, rfl⟩

/-- C5: the emitted events are a sublist of the current inStock partition, which is
itself an order-preserving selection of the current entries, so restock events
appear in the order their variants appear in the current snapshot. -/
theorem c5_event_order (previous : Stock) (currEs : List Entry) :
    List.Sublist (detectRestocks previous (buildStock currEs))
      (currEs.map (fun e => e.variant)) := by
  have h1 : List.Sublist (detectRestocks previous (buildStock currEs))
      (buildStock currEs).inStock := by
    rw [detectRestocks]
    split
    · exact List.filter_sublist _
    · exact List.nil_sublist _
  have h2 : List.Sublist ((buildStock currEs).inStock) (currEs.map (fun e => e.variant)) := by
    rw [buildStock_inStock]
    exact List.Sublist.map _ (List.filter_sublist _)
  exact h1.trans h2

/-- C6: extraction is strategy-order-stable. The eight color paths of src/index.js
lines 223-232 are all computed up front, and if extraction produced its variant
list from the path at index k then every earlier path, including every structured
path that precedes the recursive findInObject searches, yielded no non-empty
variant list. -/
theorem c6_strategy_order (product : Json) (k : Nat)
    (h : extractStrategyIndex product = some k) :
    ∀ j, j < k → yieldsNonEmptyVariants ((colorPaths product).getD j none) = false := by
  intro j hj
  cases hsel : selectColorOptions (colorPaths product) with
  | none =>
    simp [extractStrategyIndex, extractVariantList, hsel] at h
  | some kv =>
    obtain ⟨i, w⟩ := kv
    have hik : i = k := by
      simp only [extractStrategyIndex, extractVariantList, hsel] at h
      cases w with
      | null => simp at h
      | bool b => simp at h
      | num n => simp at h
      | str s => simp at h
      | obj f => simp at h
      | arr elems =>
        by_cases he : elems.isEmpty = true
        · simp [he] at h
        · simpa [he] using h
    subst hik
    exact pathAccept_none_not_nonempty _
      (selectColorOptions_earlier_rejected (colorPaths product) i w hsel j hj)

/-- Witness for C6 on a payload whose color options only the recursive key search
at index 6 can find: all six structured paths are rejected first. -/
theorem c6_witness :
    extractStrategyIndex (Json.obj [("foo", Json.obj [("colourOptions",
        Json.arr [Json.obj [("value", Json.str "1820"), ("label", Json.str "Orca")]])])])
      = some 6 ∧
    ∀ j, j < 6 → yieldsNonEmptyVariants
        ((colorPaths (Json.obj [("foo", Json.obj [("colourOptions",
          Json.arr [Json.obj [("value", Json.str "1820"),
            ("label", Json.str "Orca")]])])])).getD j none) = false :=
  ⟨rfl, c6_strategy_order _ 6 rfl⟩

/-- C7: on a cycle-aborting error the committed snapshot is left untouched, the
error is reported and the process keeps running; on success the emitted events are
the diff of the new snapshot against the snapshot committed before the cycle, and
only then is the committed snapshot replaced by the new one. -/
theorem c7_commit_discipline (previousStock : Stock) :
    (checkStock previousStock CycleInput.failure).previousStock = previousStock ∧
    (checkStock previousStock CycleInput.failure).errorReported = true ∧
    (checkStock previousStock CycleInput.failure).processExited = false ∧
    ∀ entries,
      (checkStock previousStock (CycleInput.success entries)).restockEvents
        = detectRestocks previousStock (buildStock entries) ∧
      (checkStock previousStock (CycleInput.success entries)).previousStock
        = buildStock entries :=
  ⟨rfl, rfl, rfl, fun _ => ⟨rfl, rfl⟩⟩

/-- C8 counterexample: the claim that an interval trigger firing during a running
cycle is skipped fails. With one cycle in flight, a trigger changes the scheduler
state, starting a second concurrent cycle, because setInterval registers checkStock
with no in-flight guard. -/
theorem c8_counterexample :
    onIntervalTrigger ⟨1⟩ ≠ (⟨1⟩ : SchedulerState) ∧
    (onIntervalTrigger ⟨1⟩).cyclesInFlight = 2 := by
  decide

/-- C8 amended: an interval trigger is never skipped. Every trigger starts a cycle
unconditionally, so a trigger firing while a cycle is still running puts a second
cycle in flight; the count only returns to its old value once a cycle completes. -/
theorem c8_amended_no_skip (s : SchedulerState) :
    (onIntervalTrigger s).cyclesInFlight = s.cyclesInFlight + 1 ∧
    (onCycleComplete (onIntervalTrigger s)).cyclesInFlight = s.cyclesInFlight := by
  refine ⟨rfl, ?_⟩
  simp [onCycleComplete, onIntervalTrigger]

/-- C9: with no notification endpoint configured (empty or placeholder webhook URL)
startup exits with status 1 before the poll loop, as in src/unnamed/part_001 lines
577-580; and no cycle outcome, error included, ever exits the process. -/
theorem c9_startup_exit (url : String)
    (h : (url == "" || url == "YOUR_DISCORD_WEBHOOK_URL_HERE") = true) :
    mainStartup url = StartupResult.exited 1 ∧
    ∀ previousStock input, (checkStock previousStock input).processExited = false := by
  refine ⟨?_, ?_⟩
  · simp [mainStartup, h]
  · intro p i
    cases i <;> rfl

/-- Witness for C9 at the placeholder webhook URL. -/
theorem c9_witness :
    mainStartup "YOUR_DISCORD_WEBHOOK_URL_HERE" = StartupResult.exited 1 ∧
    ∀ previousStock input, (checkStock previousStock input).processExited = false :=
  c9_startup_exit _ (by decide)

/-- C10: the snapshot built by the consolidated checkStock partitions the extracted
variants into exactly the two lists inStock and outOfStock, every entry going to
exactly one side in order, their sizes summing to the number of entries, and an
entry whose availability resolves to Unknown (null) is placed in outOfStock. -/
theorem c10_snapshot_partition (es : List Entry) :
    (buildStock es).inStock
        = (es.filter (fun e => isAvailTrue (resolveEntry e))).map (fun e => e.variant) ∧
    (buildStock es).outOfStock
        = (es.filter (fun e => !isAvailTrue (resolveEntry e))).map (fun e => e.variant) ∧
    (buildStock es).inStock.length + (buildStock es).outOfStock.length = es.length ∧
    ∀ e ∈ es, availabilityOf (resolveEntry e) = Availability.Unknown →
      e.variant ∈ (buildStock es).outOfStock := by
  refine ⟨buildStock_inStock es, buildStock_outOfStock es, buildStock_length es, ?_⟩
  intro e he hu
  rw [buildStock_outOfStock, List.mem_map]
  refine ⟨e, List.mem_filter.mpr ⟨he, ?_⟩, rfl⟩
  have hfalse : isAvailTrue (resolveEntry e) = false := by
    rw [← availabilityOf_ne_available]
    simp [hu]
  simp [hfalse]

end ArcSpec
